import Mathlib

/-!
Verification of the frame-by-frame drowsiness decision engine of the
Drowsiness-and-Yawn-Detection system.

The development shallowly embeds the decision-relevant parts of the
Python sources:

 - drowsiness_app/mediapipe_detection.py : MediaPipeDrowsinessDetector
   (eye/mouth aspect ratios, per-channel debounce counters, per-frame
   drowsy/yawn flags);
 - drowsiness_app/basic_detection.py : BasicOpenCVDetector
   (cascade-based fallback: per-face eye-ratio check and debounce);
 - drowsiness_app/detection_factory.py : DetectionFactory.create_detector
   (fixed-order fallback chain over the three provider tiers);
 - drowsiness_app/tasks.py : the module-level eye_aspect_ratio helper of
   the dlib code path, and the counter logic of
   production_drowsiness_detection (decay reset, alert persistence).

Machine integers are modelled as Lean Int (Python integers are unbounded);
image coordinates and ratios as real numbers; fallible operations
(Python division by zero, provider construction) as Option / Except.
-/

namespace Drowsiness

/-- Euclidean distance between two 2D points, as computed by
scipy.spatial.distance.euclidean on 2-element inputs. -/
noncomputable def euclidean (p q : ℝ × ℝ) : ℝ :=
  Real.sqrt ((p.1 - q.1) ^ 2 + (p.2 - q.2) ^ 2)

/-- One frame of one debounce channel of the temporal decision engine,
with consecutive-frame threshold T and incoming counter c.  Embeds the
counter/flag update of MediaPipeDrowsinessDetector.detect_drowsiness
(mediapipe_detection.py lines 132-147; the eye channel and the mouth
channel are two instances of this step with T = CONSECUTIVE_FRAMES = 3),
of BasicOpenCVDetector.detect_drowsiness (basic_detection.py lines 52-57)
and of the dlib loop of tasks.py (lines 152-196): when the condition is
met the counter is incremented and the flag is counter >= T, otherwise
the counter is hard-reset to 0 and the flag is false.  Returns
(new counter, flag emitted this frame). -/
def debounceStep (T c : ℤ) (conditionMet : Bool) : ℤ × Bool :=
  if conditionMet then
    let c' := c + 1
    (c', decide (T ≤ c'))
  else
    (0, false)

/-- Runs a debounce channel over a list of per-frame conditions from
incoming counter c, returning the list of emitted flags and the final
counter. -/
def debounceRun (T : ℤ) : ℤ → List Bool → List Bool × ℤ
  | c, [] => ([], c)
  | c, b :: bs =>
    let s := debounceStep T c b
    let r := debounceRun T s.1 bs
    (s.2 :: r.1, r.2)

/-- One frame of one alert channel of production_drowsiness_detection
(tasks.py lines 288-341), with loop-level threshold ear_frames and
incoming counter c, driven by the detector-provided per-frame flag:
when the flag is true the counter is incremented and, on reaching
ear_frames, an alert is persisted and the counter is reset to 0; when
the flag is false the counter decays by one, floored at 0
(max(0, count - 1)).  Returns (new counter, alert persisted this
frame).  The drowsiness and yawn channels are two instances of this
step. -/
def prodChannelStep (ear_frames c : ℤ) (flag : Bool) : ℤ × Bool :=
  if flag then
    let c' := c + 1
    if ear_frames ≤ c' then (0, true) else (c', false)
  else
    (max 0 (c - 1), false)

/-- Counter of one production alert channel after a list of per-frame
detector flags. -/
def prodCounterRun (T : ℤ) : ℤ → List Bool → ℤ
  | c, [] => c
  | c, b :: bs => prodCounterRun T (prodChannelStep T c b).1 bs


namespace MediaPipe

/-- Eye aspect ratio of MediaPipeDrowsinessDetector.eye_aspect_ratio
(mediapipe_detection.py lines 39-53): with fewer than 6 points the safe
default 0.3 is returned; otherwise A and B are the two vertical
point-pair distances, C the horizontal corner distance, and the result
is (A + B) / (2 C) when C is positive and the safe default 0.3
otherwise.  Out-of-range indexing cannot occur thanks to the length
guard; List.getD supplies an irrelevant default. -/
noncomputable def eye_aspect_ratio (eye : List (ℝ × ℝ)) : ℝ :=
  if eye.length < 6 then 0.3
  else
    let A := euclidean (eye.getD 1 (0, 0)) (eye.getD 5 (0, 0))
    let B := euclidean (eye.getD 2 (0, 0)) (eye.getD 4 (0, 0))
    let C := euclidean (eye.getD 0 (0, 0)) (eye.getD 3 (0, 0))
    if 0 < C then (A + B) / (2 * C) else 0.3

/-- Mouth aspect ratio of MediaPipeDrowsinessDetector.mouth_aspect_ratio
(mediapipe_detection.py lines 55-69): safe default 0.3 with fewer than 8
points, otherwise the analogous vertical-over-horizontal ratio with the
same zero-horizontal guard. -/
noncomputable def mouth_aspect_ratio (mouth : List (ℝ × ℝ)) : ℝ :=
  if mouth.length < 8 then 0.3
  else
    let A := euclidean (mouth.getD 2 (0, 0)) (mouth.getD 6 (0, 0))
    let B := euclidean (mouth.getD 3 (0, 0)) (mouth.getD 7 (0, 0))
    let C := euclidean (mouth.getD 0 (0, 0)) (mouth.getD 4 (0, 0))
    if 0 < C then (A + B) / (2 * C) else 0.3

def EAR_THRESHOLD : ℝ := 0.25

def MOUTH_AR_THRESHOLD : ℝ := 0.7

def CONSECUTIVE_FRAMES : ℤ := 3

/-- Mutable counter state of a MediaPipeDrowsinessDetector instance. -/
structure MPState where
  ear_counter : ℤ
  mouth_counter : ℤ
deriving DecidableEq, Repr

/-- Per-frame landmark data as returned by get_landmarks: left eye,
right eye and mouth point lists; none when no face was found. -/
abbrev Landmarks := List (ℝ × ℝ) × List (ℝ × ℝ) × List (ℝ × ℝ)

/-- MediaPipeDrowsinessDetector.detect_drowsiness (mediapipe_detection.py
lines 108-153) at the decision level: when get_landmarks yields nothing
the function returns early with both flags false and the counters
untouched; otherwise the averaged eye aspect ratio drives the
drowsiness channel and the mouth aspect ratio (0.0 when the mouth list
is empty) drives the yawn channel, each channel being one debounceStep
with threshold CONSECUTIVE_FRAMES.  Returns
(is_drowsy, is_yawning, new state); frame annotation is dropped as pure
presentation. -/
noncomputable def detect_drowsiness (st : MPState) (lm : Option Landmarks) :
    Bool × Bool × MPState :=
  match lm with
  | none => (false, false, st)
  | some (left_eye, right_eye, mouth) =>
    let left_ear := eye_aspect_ratio left_eye
    let right_ear := eye_aspect_ratio right_eye
    let avg_ear := (left_ear + right_ear) / 2
    let mouth_ar : ℝ := if mouth.isEmpty then 0 else mouth_aspect_ratio mouth
    let e := debounceStep CONSECUTIVE_FRAMES st.ear_counter
      (decide (avg_ear < EAR_THRESHOLD))
    let m := debounceStep CONSECUTIVE_FRAMES st.mouth_counter
      (decide (mouth_ar > MOUTH_AR_THRESHOLD))
    (e.2, m.2, MPState.mk e.1 m.1)

/-- Runs detect_drowsiness over consecutive frames, collecting the
per-frame flag pairs and the final counter state. -/
noncomputable def run_frames : MPState → List (Option Landmarks) →
    List (Bool × Bool) × MPState
  | st, [] => ([], st)
  | st, f :: fs =>
    let r := detect_drowsiness st f
    let rest := run_frames r.2.2 fs
    ((r.1, r.2.1) :: rest.1, rest.2)

end MediaPipe

namespace BasicCV

/-- Inputs the cascade stage supplies for one detected face in
BasicOpenCVDetector.detect_drowsiness: the face box width and height,
the eye boxes found in the upper half (each as x, y, w, h), and the
result of the opaque contour-based detect_yawn_basic heuristic on the
mouth region of this face. -/
structure Face where
  w : ℤ
  h : ℤ
  eyes : List (ℤ × ℤ × ℤ × ℤ)
  yawn_detected : Bool

def closed_eye_threshold : ℚ := 0.1

def consecutive_frames : ℤ := 3

/-- BasicOpenCVDetector.calculate_eye_ratio (basic_detection.py lines
87-97): 0 with no eye boxes, otherwise the summed eye-box area over the
face-box area, 0 again when the face area is not positive. -/
def calculate_eye_ratio (eyes : List (ℤ × ℤ × ℤ × ℤ))
    (face_width face_height : ℤ) : ℚ :=
  if eyes.length = 0 then 0
  else
    let total_eye_area := (eyes.map (fun e => e.2.2.1 * e.2.2.2)).sum
    let face_area := face_width * face_height
    if 0 < face_area then (total_eye_area : ℚ) / (face_area : ℚ) else 0

/-- The per-face loop of BasicOpenCVDetector.detect_drowsiness
(basic_detection.py lines 37-84): for each face the eye counter is
advanced by the debounce rule on the condition that fewer than 2 eyes
were found or the eye ratio is below the threshold; is_drowsy, once
set, stays set for the rest of the frame, while is_yawning is
overwritten with each face's heuristic result.  State is
(eye_counter, is_drowsy, is_yawning). -/
def faces_loop : ℤ → Bool → Bool → List Face → ℤ × Bool × Bool
  | c, d, y, [] => (c, d, y)
  | c, d, _y, f :: rest =>
    let ratio := calculate_eye_ratio f.eyes f.w f.h
    let s :=
      if f.eyes.length < 2 ∨ ratio < closed_eye_threshold then
        let c' := c + 1
        (c', d || decide (consecutive_frames ≤ c'))
      else (0, d)
    faces_loop s.1 s.2 f.yawn_detected rest

/-- BasicOpenCVDetector.detect_drowsiness (basic_detection.py lines
24-85) at the decision level: is_drowsy and is_yawning start false and
the face loop runs over every detected face; with no faces nothing in
the state changes.  Returns (is_drowsy, is_yawning, new eye counter). -/
def detect_drowsiness (eye_counter : ℤ) (faces : List Face) :
    Bool × Bool × ℤ :=
  let r := faces_loop eye_counter false false faces
  (r.2.1, r.2.2, r.1)

end BasicCV

namespace Tasks

/-- Python float division as the fallible operation it is: division by
zero does not produce a finite ratio (ZeroDivisionError on floats),
modelled as none. -/
noncomputable def pydiv (a b : ℝ) : Option ℝ :=
  if b = 0 then none else some (a / b)

/-- The module-level eye_aspect_ratio of the dlib code path (tasks.py
lines 30-38): A and B are the vertical point-pair distances, C the
horizontal corner distance, and the result is (A + B) / (2 C) with no
guard on C and no safe default.  The caller final_ear always passes
6-point slices, so List.getD indexing is in range. -/
noncomputable def eye_aspect_ratio (eye : List (ℝ × ℝ)) : Option ℝ :=
  let A := euclidean (eye.getD 1 (0, 0)) (eye.getD 5 (0, 0))
  let B := euclidean (eye.getD 2 (0, 0)) (eye.getD 4 (0, 0))
  let C := euclidean (eye.getD 0 (0, 0)) (eye.getD 3 (0, 0))
  pydiv (A + B) (2 * C)

end Tasks

namespace Factory

/-- The three provider tiers of the detection factory. -/
inductive DetectorKind where
  | dlib
  | mediapipe
  | basicOpenCV
deriving DecidableEq, Repr

/-- DetectionFactory.create_detector (detection_factory.py lines 12-40):
each candidate is probed in the fixed order dlib, MediaPipe, basic
OpenCV; the first whose runtime dependency imports successfully is
instantiated, and when none is available an ImportError is raised.
Availability of each tier's imports is an environment fact supplied as
a boolean; the dlib tier additionally needs the DlibDrowsinessDetector
module, which this snapshot does not ship, folded into the same
boolean. -/
def create_detector (dlib_available mediapipe_available
    opencv_available : Bool) : Except String DetectorKind :=
  if dlib_available then .ok .dlib
  else if mediapipe_available then .ok .mediapipe
  else if opencv_available then .ok .basicOpenCV
  else .error ("No computer vision libraries available for detection")

end Factory


theorem debounceRun_nil (T c : ℤ) : debounceRun T c [] = ([], c) := rfl

theorem debounceRun_cons (T c : ℤ) (b : Bool) (bs : List Bool) :
    debounceRun T c (b :: bs) =
      ((debounceStep T c b).2 :: (debounceRun T (debounceStep T c b).1 bs).1,
        (debounceRun T (debounceStep T c b).1 bs).2) := rfl

theorem debounceRun_append (T c : ℤ) (xs ys : List Bool) :
    debounceRun T c (xs ++ ys) =
      ((debounceRun T c xs).1 ++ (debounceRun T (debounceRun T c xs).2 ys).1,
        (debounceRun T (debounceRun T c xs).2 ys).2) := by
  induction xs generalizing c with
  | nil => simp [debounceRun]
  | cons b bs ih =>
    simp [debounceRun_cons, List.cons_append, ih]

/-- Feeding k frames of conditionMet=true from counter c: the flag at
frame i (0-based) is T <= c+i+1, and the final counter is c+k. -/
theorem debounceRun_replicate_true (T : ℤ) (k : ℕ) (c : ℤ) :
    debounceRun T c (List.replicate k true) =
      ((List.range k).map (fun i : ℕ => decide (T ≤ c + (i : ℤ) + 1)),
        c + (k : ℤ)) := by
  induction k generalizing c with
  | zero => simp [debounceRun]
  | succ n ih =>
    rw [List.replicate_succ, debounceRun_cons]
    have hstep : debounceStep T c true = (c + 1, decide (T ≤ c + 1)) := rfl
    rw [hstep, ih (c + 1), List.range_succ_eq_map]
    simp only [List.map_cons, List.map_map, Prod.mk.injEq, List.cons.injEq]
    refine ⟨⟨?_, ?_⟩, ?_⟩
    · rw [decide_eq_decide]
      push_cast
      omega
    · apply List.map_congr_left
      intro i _
      simp only [Function.comp_apply]
      rw [decide_eq_decide]
      push_cast
      omega
    · push_cast
      ring

theorem map_range_decide_false (T : ℤ) (k : ℕ) (hk : (k : ℤ) ≤ T - 1) :
    (List.range k).map (fun i : ℕ => decide (T ≤ 0 + (i : ℤ) + 1)) =
      List.replicate k false := by
  rw [List.eq_replicate_iff]
  refine ⟨by simp, ?_⟩
  intro b hb
  simp only [List.mem_map, List.mem_range] at hb
  obtain ⟨i, hi, rfl⟩ := hb
  simp only [decide_eq_false_iff_not]
  omega

/-- Claim C1: feeding conditionMet=true for exactly T-1 frames and then
false, from a fresh channel, yields flag=false on every frame; feeding
true for T consecutive frames from a fresh channel yields flag=true
exactly at frame T and false before; with T=3, the condition sequence
[true, true, true, false, true, true, true] produces the flag sequence
[false, false, true, false, false, false, true]. -/
theorem debounce_threshold_behavior (T : ℕ) (hT : 1 ≤ T) :
    (debounceRun (T : ℤ) 0 (List.replicate (T - 1) true ++ [false])).1 =
      List.replicate T false ∧
    (debounceRun (T : ℤ) 0 (List.replicate T true)).1 =
      List.replicate (T - 1) false ++ [true] ∧
    (debounceRun 3 0 [true, true, true, false, true, true, true]).1 =
      [false, false, true, false, false, false, true] := by
  obtain ⟨k, rfl⟩ : ∃ k, T = k + 1 := ⟨T - 1, by omega⟩
  have hk1 : k + 1 - 1 = k := by omega
  refine ⟨?_, ?_, by decide⟩
  · rw [hk1, debounceRun_append, debounceRun_replicate_true]
    dsimp only
    rw [map_range_decide_false _ k (by push_cast; omega)]
    have hlast :
        (debounceRun (((k + 1 : ℕ) : ℤ)) (0 + (k : ℤ)) [false]).1 = [false] := by
      simp [debounceRun, debounceStep]
    rw [hlast, ← List.replicate_succ']
  · rw [hk1, debounceRun_replicate_true]
    dsimp only
    rw [List.range_succ, List.map_append,
      map_range_decide_false _ k (by push_cast; omega)]
    have hone : (((k + 1 : ℕ) : ℤ)) ≤ 0 + (k : ℤ) + 1 := by push_cast; omega
    simp [hone]

theorem debounce_threshold_behavior_witness :
    1 ≤ 3 ∧
    ((debounceRun ((3 : ℕ) : ℤ) 0 (List.replicate (3 - 1) true ++ [false])).1 =
        List.replicate 3 false ∧
      (debounceRun ((3 : ℕ) : ℤ) 0 (List.replicate 3 true)).1 =
        List.replicate (3 - 1) false ++ [true] ∧
      (debounceRun 3 0 [true, true, true, false, true, true, true]).1 =
        [false, false, true, false, false, false, true]) :=
  ⟨by decide, debounce_threshold_behavior 3 (by decide)⟩

/-- Claim C2: from any Triggered state (counter at or above the
threshold), one frame with conditionMet=false returns the channel to
Quiescent: counter 0 and flag false, under the hard-reset policy of the
detector state machines. -/
theorem triggered_hard_reset (T c : ℤ) (_h : T ≤ c) :
    debounceStep T c false = (0, false) := rfl

theorem triggered_hard_reset_witness :
    (3 : ℤ) ≤ 5 ∧ debounceStep 3 5 false = (0, false) :=
  ⟨by decide, triggered_hard_reset 3 5 (by decide)⟩

theorem debounceStep_false (T c : ℤ) : debounceStep T c false = (0, false) := rfl

theorem debounceStep_true (T c : ℤ) :
    debounceStep T c true = (c + 1, decide (T ≤ c + 1)) := rfl

theorem prodChannelStep_fst_false (T c : ℤ) :
    (prodChannelStep T c false).1 = max 0 (c - 1) := rfl

theorem prodChannelStep_snd_false (T c : ℤ) :
    (prodChannelStep T c false).2 = false := rfl

theorem prodChannelStep_true (T c : ℤ) :
    prodChannelStep T c true =
      if T ≤ c + 1 then (0, true) else (c + 1, false) := rfl

theorem prodChannelStep_fst_true (T c : ℤ) :
    (prodChannelStep T c true).1 = if T ≤ c + 1 then 0 else c + 1 := by
  rw [prodChannelStep_true]
  split <;> rfl

theorem prodChannelStep_snd_true (T c : ℤ) :
    (prodChannelStep T c true).2 = decide (T ≤ c + 1) := by
  rw [prodChannelStep_true]
  split <;> simp_all

theorem prodChannelStep_nonneg (T c : ℤ) (b : Bool) (hc : 0 ≤ c) :
    0 ≤ (prodChannelStep T c b).1 := by
  cases b
  · rw [prodChannelStep_fst_false]
    exact le_max_left 0 (c - 1)
  · rw [prodChannelStep_fst_true]
    split
    · exact le_refl 0
    · omega

theorem prodCounterRun_nonneg (T c : ℤ) (bs : List Bool) (hc : 0 ≤ c) :
    0 ≤ prodCounterRun T c bs := by
  induction bs generalizing c with
  | nil => exact hc
  | cons b bs ih => exact ih _ (prodChannelStep_nonneg T c b hc)

/-- The production counter never exceeds the incoming counter plus the
number of detector-positive frames seen. -/
theorem prodCounterRun_le (T c : ℤ) (bs : List Bool) (hc : 0 ≤ c) :
    prodCounterRun T c bs ≤ c + (bs.count true : ℤ) := by
  induction bs generalizing c with
  | nil => simp [prodCounterRun]
  | cons b bs ih =>
    rw [prodCounterRun]
    have hstep : 0 ≤ (prodChannelStep T c b).1 := prodChannelStep_nonneg T c b hc
    have hle := ih (prodChannelStep T c b).1 hstep
    cases b with
    | false =>
      have hbound : (prodChannelStep T c false).1 ≤ c := by
        rw [prodChannelStep_fst_false]
        exact max_le hc (by omega)
      have hcnt : (false :: bs).count true = bs.count true := by simp
      rw [hcnt]
      omega
    | true =>
      have hbound : (prodChannelStep T c true).1 ≤ c + 1 := by
        rw [prodChannelStep_fst_true]
        split <;> omega
      have hcnt : (true :: bs).count true = bs.count true + 1 := by simp
      rw [hcnt]
      push_cast
      omega

/-- Claim C6: in the production (no-landmark) code path, when the
per-frame detection condition is not met the channel counter is
decremented by one rather than hard-reset, and never goes below zero. -/
theorem prod_decay_policy (T c : ℤ) (hc : 0 ≤ c) :
    (prodChannelStep T c false).1 = max 0 (c - 1) ∧
    0 ≤ (prodChannelStep T c false).1 ∧
    (0 < c → (prodChannelStep T c false).1 = c - 1) ∧
    (prodChannelStep T c false).2 = false := by
  refine ⟨rfl, prodChannelStep_nonneg T c false hc, ?_, rfl⟩
  intro hpos
  rw [prodChannelStep_fst_false]
  exact max_eq_right (by omega)

theorem prod_decay_policy_witness :
    (0 : ℤ) ≤ 2 ∧
    ((prodChannelStep 3 2 false).1 = max 0 (2 - 1) ∧
      0 ≤ (prodChannelStep 3 2 false).1 ∧
      (0 < (2 : ℤ) → (prodChannelStep 3 2 false).1 = 2 - 1) ∧
      (prodChannelStep 3 2 false).2 = false) :=
  ⟨by decide, prod_decay_policy 3 2 (by decide)⟩

/-- Claim C10: in the production loop, an alert is persisted at a frame
only if the detector flag is true on that frame and the loop-level
counter has reached ear_frames; the counter is reset to 0 immediately
after the alert; and starting from the post-alert state (counter 0),
any run of frames whose last frame persists the next alert contains at
least ear_frames detector-positive frames. -/
theorem prod_alert_separation (T : ℤ) (flags : List Bool) (b : Bool)
    (halert : (prodChannelStep T (prodCounterRun T 0 flags) b).2 = true) :
    b = true ∧
    T ≤ prodCounterRun T 0 flags + 1 ∧
    (prodChannelStep T (prodCounterRun T 0 flags) b).1 = 0 ∧
    T ≤ (((flags ++ [b]).count true : ℕ) : ℤ) := by
  have hb : b = true := by
    cases b with
    | true => rfl
    | false =>
      rw [prodChannelStep_snd_false] at halert
      exact absurd halert (by simp)
  subst hb
  have hc0 : (0 : ℤ) ≤ 0 := le_refl 0
  have hfire : T ≤ prodCounterRun T 0 flags + 1 := by
    rw [prodChannelStep_snd_true] at halert
    exact of_decide_eq_true halert
  have hct : prodCounterRun T 0 flags ≤ (flags.count true : ℤ) := by
    have := prodCounterRun_le T 0 flags hc0
    omega
  refine ⟨rfl, hfire, ?_, ?_⟩
  · rw [prodChannelStep_fst_true, if_pos hfire]
  · have hcount : (flags ++ [true]).count true = flags.count true + 1 := by
      simp [List.count_append]
    rw [hcount]
    push_cast
    omega

theorem prod_alert_separation_witness :
    true = true ∧
    (2 : ℤ) ≤ prodCounterRun 2 0 [true] + 1 ∧
    (prodChannelStep 2 (prodCounterRun 2 0 [true]) true).1 = 0 ∧
    (2 : ℤ) ≤ ((([true] ++ [true]).count true : ℕ) : ℤ) :=
  prod_alert_separation 2 [true] true (by decide)

/-- Claim C7 counterexample: in the production loop with ear_frames = 2,
feeding two consecutive detector-positive frames from counter 0 makes
the counter go from 1 to 0 between the two frames, so the counter is
not monotonically non-decreasing while the trigger condition holds. -/
theorem prod_counter_decrease_concrete :
    (prodChannelStep 2 (prodChannelStep 2 0 true).1 true).1 <
      (prodChannelStep 2 0 true).1 := by decide

/-- Claim C7 (amended): both counter families are always nonnegative;
in the detector state machines the counter increments while the
condition holds and hard-resets to zero when it does not; in the
production loop the counter increments while the condition holds except
that on reaching the alert threshold it resets to zero, and when the
condition does not hold it decrements by one, floored at zero. -/
theorem counter_invariants (T c : ℤ) (b : Bool) (hc : 0 ≤ c) :
    0 ≤ (debounceStep T c b).1 ∧
    0 ≤ (prodChannelStep T c b).1 ∧
    (b = true → (debounceStep T c b).1 = c + 1) ∧
    (b = false → (debounceStep T c b).1 = 0) ∧
    (b = true →
      (prodChannelStep T c b).1 = c + 1 ∧ c + 1 < T ∨
        ((prodChannelStep T c b).1 = 0 ∧ T ≤ c + 1)) ∧
    (b = false → (prodChannelStep T c b).1 = max 0 (c - 1)) ∧
    (∀ bs : List Bool, 0 ≤ prodCounterRun T c bs) ∧
    (∀ bs : List Bool, 0 ≤ (debounceRun T c bs).2) := by
  refine ⟨?_, prodChannelStep_nonneg T c b hc, ?_, ?_, ?_, ?_, ?_, ?_⟩
  · cases b
    · rw [debounceStep_false]
    · rw [debounceStep_true]
      dsimp only
      omega
  · intro hb; subst hb; rfl
  · intro hb; subst hb; rfl
  · intro hb; subst hb
    rw [prodChannelStep_fst_true]
    split
    · right
      exact ⟨rfl, by omega⟩
    · left
      exact ⟨rfl, by omega⟩
  · intro hb; subst hb; rfl
  · intro bs; exact prodCounterRun_nonneg T c bs hc
  · intro bs
    induction bs generalizing c with
    | nil => exact hc
    | cons x xs ih =>
      rw [debounceRun_cons]
      dsimp only
      apply ih
      cases x
      · rw [debounceStep_false]
      · rw [debounceStep_true]
        dsimp only
        omega
theorem counter_invariants_witness :
    (0 : ℤ) ≤ 1 ∧
    (0 ≤ (debounceStep 2 1 true).1 ∧
      0 ≤ (prodChannelStep 2 1 true).1 ∧
      (true = true → (debounceStep 2 1 true).1 = 1 + 1) ∧
      (true = false → (debounceStep 2 1 true).1 = 0) ∧
      (true = true →
        (prodChannelStep 2 1 true).1 = 1 + 1 ∧ (1 : ℤ) + 1 < 2 ∨
          ((prodChannelStep 2 1 true).1 = 0 ∧ (2 : ℤ) ≤ 1 + 1)) ∧
      (true = false → (prodChannelStep 2 1 true).1 = max 0 (1 - 1)) ∧
      (∀ bs : List Bool, 0 ≤ prodCounterRun 2 1 bs) ∧
      (∀ bs : List Bool, 0 ≤ (debounceRun 2 1 bs).2)) :=
  ⟨by decide, counter_invariants 2 1 true (by decide)⟩

theorem euclidean_self (p : ℝ × ℝ) : euclidean p p = 0 := by
  simp [euclidean]

/-- Claim C3: provider selection probes dlib, then MediaPipe, then the
basic OpenCV cascade fallback, returns the first available tier, and
errors exactly when all three are unavailable; with only the cascade
dependency present it returns the cascade tier. -/
theorem fallback_selection (a b c : Bool) :
    (a = true → Factory.create_detector a b c = .ok .dlib) ∧
    (a = false → b = true →
      Factory.create_detector a b c = .ok .mediapipe) ∧
    (a = false → b = false → c = true →
      Factory.create_detector a b c = .ok .basicOpenCV) ∧
    (Factory.create_detector a b c =
        .error ("No computer vision libraries available for detection") ↔
      a = false ∧ b = false ∧ c = false) ∧
    Factory.create_detector false false true = .ok .basicOpenCV := by
  cases a <;> cases b <;> cases c <;>
    simp [Factory.create_detector]

theorem fallback_selection_witness :
    Factory.create_detector false false true =
      Except.ok Factory.DetectorKind.basicOpenCV :=
  (fallback_selection false false true).2.2.1 rfl rfl rfl

/-- Claim C4 counterexample: a no-face frame does not reset the
counters to zero.  With both counters at 2, a frame on which the
provider returns no landmarks leaves the state exactly at 2, so the
ear counter after the frame is not 0 (the emitted event is still
NONE). -/
theorem no_face_reset_counterexample :
    MediaPipe.detect_drowsiness (MediaPipe.MPState.mk 2 2) none =
      (false, false, MediaPipe.MPState.mk 2 2) ∧
    (MediaPipe.detect_drowsiness
        (MediaPipe.MPState.mk 2 2) none).2.2.ear_counter ≠ 0 := by
  refine ⟨rfl, ?_⟩
  intro h
  have h2 : (2 : ℤ) = 0 := h
  norm_num at h2

/-- Claim C4 (amended): on every frame with no detected face the engine
emits NONE (both flags false) and leaves both debounce counters
unchanged rather than resetting them; after 5 consecutive no-face
frames NONE has been emitted 5 times and the counters equal their
values before those frames.  The cascade fallback behaves the same way
when its face list is empty. -/
theorem no_face_emits_none_counters_unchanged
    (st : MediaPipe.MPState) (c : ℤ) :
    MediaPipe.detect_drowsiness st none = (false, false, st) ∧
    MediaPipe.run_frames st (List.replicate 5 none) =
      (List.replicate 5 (false, false), st) ∧
    BasicCV.detect_drowsiness c [] = (false, false, c) :=
  ⟨rfl, rfl, rfl⟩

/-- Claim C5: the landmark-based eye aspect ratio returns the safe
default 0.3 on every input with fewer than 6 points and on every input
whose horizontal corner distance is zero; being a total function with
a guarded division, it never raises and never divides by zero. -/
theorem ear_safe_default (eye : List (ℝ × ℝ)) :
    (eye.length < 6 → MediaPipe.eye_aspect_ratio eye = 0.3) ∧
    (euclidean (eye.getD 0 (0, 0)) (eye.getD 3 (0, 0)) = 0 →
      MediaPipe.eye_aspect_ratio eye = 0.3) := by
  constructor
  · intro h
    unfold MediaPipe.eye_aspect_ratio
    rw [if_pos h]
  · intro h
    unfold MediaPipe.eye_aspect_ratio
    split
    · rfl
    · dsimp only
      rw [h]
      simp

theorem ear_safe_default_witness :
    MediaPipe.eye_aspect_ratio [((0 : ℝ), 0), (1, 1), (2, 1)] = 0.3 ∧
    MediaPipe.eye_aspect_ratio
      [((0 : ℝ), 0), (0, 1), (1, 1), (0, 0), (1, 0), (0, 2)] = 0.3 :=
  ⟨(ear_safe_default _).1 (by norm_num),
    (ear_safe_default _).2 (euclidean_self ((0 : ℝ), 0))⟩

/-- Claim C8: for every 6-point eye geometry whose two vertical point
pairs have distance zero while the horizontal corner distance is
strictly positive, the eye aspect ratio is exactly 0. -/
theorem ear_zero_when_closed (eye : List (ℝ × ℝ))
    (hlen : eye.length = 6)
    (hA : euclidean (eye.getD 1 (0, 0)) (eye.getD 5 (0, 0)) = 0)
    (hB : euclidean (eye.getD 2 (0, 0)) (eye.getD 4 (0, 0)) = 0)
    (hC : 0 < euclidean (eye.getD 0 (0, 0)) (eye.getD 3 (0, 0))) :
    MediaPipe.eye_aspect_ratio eye = 0 := by
  unfold MediaPipe.eye_aspect_ratio
  rw [if_neg (by omega)]
  dsimp only
  rw [hA, hB, if_pos hC]
  norm_num

theorem ear_zero_when_closed_witness :
    MediaPipe.eye_aspect_ratio
      [((0 : ℝ), 0), (1, 1), (2, 1), (4, 0), (2, 1), (1, 1)] = 0 :=
  ear_zero_when_closed _ rfl (euclidean_self ((1 : ℝ), 1))
    (euclidean_self ((2 : ℝ), 1))
    (by
      show (0 : ℝ) < euclidean ((0 : ℝ), 0) ((4 : ℝ), 0)
      unfold euclidean
      have h16 : (((0 : ℝ), (0 : ℝ)).1 - ((4 : ℝ), (0 : ℝ)).1) ^ 2 +
          (((0 : ℝ), (0 : ℝ)).2 - ((4 : ℝ), (0 : ℝ)).2) ^ 2 = 16 := by norm_num
      rw [h16]
      exact Real.sqrt_pos.mpr (by norm_num))

/-- Claim C9: the dlib-path eye aspect ratio in tasks.py divides by the
horizontal corner distance with no guard and no safe default: for an
input whose horizontal corner points coincide it performs a division by
zero (no finite result) instead of returning 0.3. -/
theorem tasks_ear_unguarded (eye : List (ℝ × ℝ))
    (h : eye.getD 0 (0, 0) = eye.getD 3 (0, 0)) :
    Tasks.eye_aspect_ratio eye = none ∧
    Tasks.eye_aspect_ratio eye ≠ some (0.3 : ℝ) := by
  have hz : Tasks.eye_aspect_ratio eye = none := by
    unfold Tasks.eye_aspect_ratio
    dsimp only
    rw [h, euclidean_self, mul_zero]
    unfold Tasks.pydiv
    rw [if_pos rfl]
  refine ⟨hz, ?_⟩
  rw [hz]
  exact fun hc => Option.noConfusion hc

theorem tasks_ear_unguarded_witness :
    Tasks.eye_aspect_ratio
        [((0 : ℝ), 0), (0, 1), (1, 1), (0, 0), (1, 0), (0, 2)] = none ∧
    Tasks.eye_aspect_ratio
        [((0 : ℝ), 0), (0, 1), (1, 1), (0, 0), (1, 0), (0, 2)] ≠
      some (0.3 : ℝ) :=
  tasks_ear_unguarded _ rfl

end Drowsiness
